import Mathlib

/-!
Shallow embedding of the react-ghost-text suggestion lifecycle engine
(AutocompleteTextbox.tsx, utils.tsx, types.ts).

Modelling conventions:
* The mutable refs of the component (the suggestion marker elements present in the
  DOM, the LRU cache, the debounce timer, the AbortController and the
  disableSelectionEvent flag) become the fields of EngineState.
* DOM reads are oracles passed as parameters: getTextUptilCaretInElement is
  sampled once at entry of showSuggestionAtCaret (parameter s0) and once after
  the await of the provider (parameter s1); likewise the Date.now() readings
  are t0 (at entry) and t1 (after the await).  Execution is single threaded,
  so reads within one synchronous segment coincide: the cache-hit path never
  crosses the await and therefore reuses s0 and t0 for the re-read.
* The user supplied getSuggestion function is modelled as
  String → Bool → Except String String: the Bool argument is the aborted
  state of the AbortSignal handed to it, Except.error models a thrown
  error / rejected promise.  showSuggestionAtCaret has no try/catch, so an
  error of the provider is surfaced in the err field of the result,
  modelling the rejection of the promise returned by the async function.
* The callbacks (onSuggestionShown, onSuggestionRejected,
  onSuggestionAccepted, onContentChange) are modelled as an emitted list of
  Notif values, in invocation order.
* insertNodeAtCaret touches the DOM; its success is the oracle insertOk and
  its effect on the marker list is recorded in EngineState.markers.
-/

namespace GhostText

/-- SuggestionRemovalReason from types.ts
(IMPLICIT, EXPLICIT, SYSTEM = internal). -/
inductive SuggestionRemovalReason where
  | implicit
  | explicit
  | system
deriving DecidableEq

/-- A materialized suggestion marker element in the surface: a span carrying
the data-suggestionid attribute.  markers lists them in document order, so
querySelectorAll order is the list order. -/
structure Marker where
  id : String
  text : String
deriving DecidableEq

/-- One callback invocation emitted by the engine.  contentChange carries the
innerHTML of the surface in the source; the payload is irrelevant to the claims
and omitted. -/
inductive Notif where
  | shown (id : String) (latency : Nat) (suggestionText : String) (leadingText : String)
  | rejected (suggestionId : String) (reason : SuggestionRemovalReason)
  | accepted (suggestionId : String)
  | contentChange
deriving DecidableEq

/-- Capacity of the lru-cache instance: new LRUCache({ max: 25 }). -/
def cacheMax : Nat := 25

/-- LRUCache.get.  The cache is a list of (key, value) pairs, most recently
used first; a hit promotes the entry to the head. -/
def lruGet (cache : List (String × String)) (k : String) :
    Option String × List (String × String) :=
  match cache.find? (fun e => e.1 == k) with
  | none => (none, cache)
  | some e => (some e.2, e :: cache.filter (fun x => x.1 ≠ k))

/-- LRUCache.set: insert as most recently used, evicting the least recently
used entries beyond capacity. -/
def lruSet (cache : List (String × String)) (k v : String) :
    List (String × String) :=
  ((k, v) :: cache.filter (fun x => x.1 ≠ k)).take cacheMax

/-- The mutable state of the component: the refs of AutocompleteTextbox plus the
suggestion marker elements currently present in the surface. -/
structure EngineState where
  markers : List Marker
  cache : List (String × String)
  timerArmed : Bool
  fetchAborted : Bool
  disableSelectionEvent : Bool
deriving DecidableEq

/-- State of a freshly mounted component: no markers, empty cache, the
timer ref holds an already-elapsed dummy timeout, the AbortController is
fresh. -/
def initialState : EngineState :=
  { markers := [], cache := [], timerArmed := false,
    fetchAborted := false, disableSelectionEvent := false }

/-- isSuggestionDisplayed: querySelectorAll over the suggestionIdAttribute
finds at least one element. -/
def isSuggestionDisplayed (st : EngineState) : Bool :=
  !st.markers.isEmpty

/-- getCurrentSuggestionElement: the first element found, or null. -/
def getCurrentSuggestionElement (st : EngineState) : Option Marker :=
  st.markers.head?

/-- removeSuggestionIfDisplayed: removes every element carrying the
suggestionIdAttribute and, unless the reason is SYSTEM, invokes
onSuggestionRejected once per removed element. -/
def removeSuggestionIfDisplayed (reason : SuggestionRemovalReason)
    (st : EngineState) : EngineState × List Notif :=
  ({ st with markers := [] },
   if reason = SuggestionRemovalReason.system then []
   else st.markers.map (fun m => Notif.rejected m.id reason))

/-- Result of the async showSuggestionAtCaret: the new state, the emitted
callbacks, how many times the provider passed to it was invoked, and
err = some e when the provider threw/rejected with e and the rejection
escaped (there is no try/catch around the await in the source). -/
structure ShowResult where
  st : EngineState
  notifs : List Notif
  providerCalls : Nat
  err : Option String
deriving DecidableEq

/-- Tail of showSuggestionAtCaret common to the cache-hit and fetch paths:
the staleness re-check of the leading text, the insertion of the suggestion
element at the caret, and the onSuggestionShown callback. -/
def showTail (st : EngineState) (pCalls : Nat)
    (textUptilCaret suggestionText : String) (latency : Nat)
    (textUptilCaretAfterFetch : String) (insertOk : Bool) (newId : String) :
    ShowResult :=
  if textUptilCaret ≠ textUptilCaretAfterFetch then
    { st := st, notifs := [], providerCalls := pCalls, err := none }
  else if insertOk then
    { st := { st with markers := [{ id := newId, text := suggestionText }] },
      notifs := [Notif.shown newId latency suggestionText textUptilCaret],
      providerCalls := pCalls, err := none }
  else
    { st := st, notifs := [], providerCalls := pCalls, err := none }

/-- showSuggestionAtCaret.  s0 is getTextUptilCaretInElement at entry, s1 the
same read after the await of the provider; t0 and t1 are the Date.now()
readings at those two points.  On a cache hit no await is crossed, so the
after-fetch re-read is s0 and timeAfter is t0.  On a miss a fresh
AbortController is installed (fetchAborted := false) and the provider is
called with the leading text and the fresh, non-aborted signal. -/
def showSuggestionAtCaret (provider : String → Bool → Except String String)
    (s0 s1 : String) (t0 t1 : Nat) (insertOk : Bool) (newId : String)
    (st : EngineState) : ShowResult :=
  let rm := removeSuggestionIfDisplayed SuggestionRemovalReason.system st
  let g := lruGet rm.1.cache s0
  let st2 := { rm.1 with cache := g.2 }
  let r :=
    if (g.1.getD "") ≠ "" then
      showTail st2 0 s0 (g.1.getD "") (t0 - t0) s0 insertOk newId
    else
      let st3 := { st2 with fetchAborted := false }
      match provider s0 false with
      | Except.error e =>
        { st := st3, notifs := [], providerCalls := 1, err := some e }
      | Except.ok sText =>
        if sText = "" then
          { st := st3, notifs := [], providerCalls := 1, err := none }
        else
          let st4 := { st3 with cache := lruSet st3.cache s0 sText }
          showTail st4 1 s0 sText (t1 - t0) s1 insertOk newId
  { r with notifs := rm.2 ++ r.notifs }

/-- String.prototype.startsWith, defined on the underlying character
sequence (the claims only involve characters where JS code units and
characters agree). -/
def strStartsWith (s pre : String) : Bool :=
  pre.data.isPrefixOf s.data

/-- Result of handleInput: state, callbacks, and a possible escaped promise
rejection from the floating showSuggestionAtCaret call. -/
structure InputResult where
  st : EngineState
  notifs : List Notif
  err : Option String
deriving DecidableEq

/-- handleInput.  justTyped is (event.nativeEvent as InputEvent).data (none
models null/undefined).  The oracles s0 s1 t0 t1 insertOk newId are those of
the showSuggestionAtCaret call it may make. -/
def handleInput (disableAutocomplete : Bool) (justTyped : Option String)
    (s0 s1 : String) (t0 t1 : Nat) (insertOk : Bool) (newId : String)
    (st : EngineState) : InputResult :=
  if disableAutocomplete then
    { st := st, notifs := [Notif.contentChange], err := none }
  else
    match st.markers with
    | suggestion :: _ =>
      let justTypedStr := justTyped.getD ""
      if (justTypedStr != "") && strStartsWith suggestion.text justTypedStr then
        let rm := removeSuggestionIfDisplayed SuggestionRemovalReason.implicit st
        let remainingSuggestion := suggestion.text.drop justTypedStr.length
        if remainingSuggestion ≠ "" then
          let r := showSuggestionAtCaret (fun _ _ => Except.ok remainingSuggestion)
                      s0 s1 t0 t1 insertOk newId rm.1
          { st := { r.st with disableSelectionEvent := true },
            notifs := rm.2 ++ [Notif.contentChange] ++ r.notifs,
            err := r.err }
        else
          { st := rm.1, notifs := rm.2 ++ [Notif.contentChange], err := none }
      else
        let rm := removeSuggestionIfDisplayed SuggestionRemovalReason.implicit st
        { st := rm.1, notifs := rm.2 ++ [Notif.contentChange], err := none }
    | [] =>
      let rm := removeSuggestionIfDisplayed SuggestionRemovalReason.implicit st
      { st := rm.1, notifs := rm.2 ++ [Notif.contentChange], err := none }

/-- The key of a keydown event, as inspected by handleKeyDown. -/
inductive Key where
  | escape
  | tab
  | other
deriving DecidableEq

/-- Result of handleKeyDown; assertFailed records the
assert(suggestionText) throwing on an empty marker text. -/
structure KeyResult where
  st : EngineState
  notifs : List Notif
  assertFailed : Bool
deriving DecidableEq

/-- handleKeyDown.  Note that neither the Escape branch nor the Tab branch
calls clearTimerAndAbortFetch.  On Tab with a successful insertion the code
dispatches a synthetic input event, which runs handleInput synchronously; the
synthetic Event has no data field, so justTyped is none, and that run never
reaches showSuggestionAtCaret (the markers were just removed), so its
oracles are irrelevant and passed as dummies. -/
def handleKeyDown (disableAutocomplete : Bool) (key : Key) (insertOk : Bool)
    (st : EngineState) : KeyResult :=
  if disableAutocomplete then
    { st := st, notifs := [], assertFailed := false }
  else
    match key with
    | Key.escape =>
      let rm := removeSuggestionIfDisplayed SuggestionRemovalReason.explicit st
      { st := rm.1, notifs := rm.2, assertFailed := false }
    | Key.tab =>
      match st.markers with
      | [] => { st := st, notifs := [], assertFailed := false }
      | suggestion :: _ =>
        if suggestion.text = "" then
          { st := st, notifs := [], assertFailed := true }
        else
          let rm := removeSuggestionIfDisplayed SuggestionRemovalReason.system st
          if insertOk then
            let r := handleInput false none "" "" 0 0 false "" rm.1
            { st := r.st,
              notifs := rm.2 ++ [Notif.accepted suggestion.id] ++ r.notifs,
              assertFailed := false }
          else
            { st := rm.1, notifs := rm.2, assertFailed := false }
    | Key.other => { st := st, notifs := [], assertFailed := false }

/-- clearTimerAndAbortFetch: clearTimeout on the timer ref and abort() on the
current AbortController. -/
def clearTimerAndAbortFetch (st : EngineState) : EngineState :=
  { st with timerArmed := false, fetchAborted := true }

/-- handleSelection.  selectionExists and isCollapsed describe
window.getSelection(); atLineEnd is the isCaretAtLineEnd oracle. -/
def handleSelection (disableAutocomplete : Bool)
    (selectionExists isCollapsed atLineEnd : Bool)
    (st : EngineState) : EngineState × List Notif :=
  if disableAutocomplete then (st, [])
  else if st.disableSelectionEvent then
    ({ st with disableSelectionEvent := false }, [])
  else
    let rm := removeSuggestionIfDisplayed SuggestionRemovalReason.implicit st
    let st2 := clearTimerAndAbortFetch rm.1
    if !selectionExists || !isCollapsed then (st2, rm.2)
    else if atLineEnd then ({ st2 with timerArmed := true }, rm.2)
    else (st2, rm.2)

/-- handleBlur. -/
def handleBlur (st : EngineState) : EngineState × List Notif :=
  let rm := removeSuggestionIfDisplayed SuggestionRemovalReason.implicit st
  (clearTimerAndAbortFetch rm.1, rm.2)

/-- A surface event delivered to the engine, with the oracles its handler
needs.  timerFire is the debounce timeout elapsing, which runs
showSuggestionAtCaret with the externally supplied getSuggestion provider;
it only runs if the timer is still armed. -/
inductive Ev where
  | input (disable : Bool) (justTyped : Option String) (s0 s1 : String)
      (t0 t1 : Nat) (insertOk : Bool) (newId : String)
  | keyDown (disable : Bool) (key : Key) (insertOk : Bool)
  | selection (disable : Bool) (selectionExists isCollapsed atLineEnd : Bool)
  | blur
  | timerFire (provider : String → Bool → Except String String)
      (s0 s1 : String) (t0 t1 : Nat) (insertOk : Bool) (newId : String)

/-- One engine step: dispatch an event to its handler.  This coarse model
applies the whole async showSuggestionAtCaret as a single step — adequate
for properties insensitive to interleaving across the provider await, such
as which values ever enter the cache; the fine-grained model further below
(stepFine) splits the call at the await and lets surface events and other
resolutions interleave, as the source permits. -/
def step (st : EngineState) (ev : Ev) : EngineState :=
  match ev with
  | Ev.input d j s0 s1 t0 t1 ok nid => (handleInput d j s0 s1 t0 t1 ok nid st).st
  | Ev.keyDown d k ok => (handleKeyDown d k ok st).st
  | Ev.selection d se c l => (handleSelection d se c l st).1
  | Ev.blur => (handleBlur st).1
  | Ev.timerFire p s0 s1 t0 t1 ok nid =>
    if st.timerArmed then
      (showSuggestionAtCaret p s0 s1 t0 t1 ok nid { st with timerArmed := false }).st
    else st

/-- Run a sequence of surface events from the freshly mounted component. -/
def run (evs : List Ev) : EngineState :=
  evs.foldl step initialState

/-- Model of a DOM Range as used by getTextUptilCaretInElement:
setStartAndClone is the combined effect of range.setStart(element, 0)
followed by cloning the range contents into a div — none models the
setStart call throwing (the try/catch in the source), some html models
success with the innerHTML of the cloned fragment. -/
structure DomRange where
  setStartAndClone : Option String
deriving DecidableEq

/-- Model of a window Selection: collapsed flag and the range at index 0. -/
structure DomSelection where
  isCollapsed : Bool
  rangeAt0 : DomRange
deriving DecidableEq

/-- Model of the DOM context of the utils functions:
window.getSelection() may be null. -/
structure Dom where
  selection : Option DomSelection
deriving DecidableEq

/-- getCaretAsRange from utils.tsx: null when there is no selection or the
selection is not collapsed, otherwise the range of the selection. -/
def getCaretAsRange (dom : Dom) : Option DomRange :=
  match dom.selection with
  | none => none
  | some sel => if !sel.isCollapsed then none else some sel.rangeAt0

/-- getTextUptilCaretInElement from utils.tsx.  innerText is the rendered
innerText rendering of the scratch div, passed as an oracle; the two
innerHTML replacements (closing/opening div boundary and br, both to a
newline) and the final non-breaking-space normalization are string rewrites
taken from the source.  The catch branch around range.setStart logs and
returns the empty string. -/
def getTextUptilCaretInElement (innerText : String → String) (dom : Dom) :
    String :=
  match getCaretAsRange dom with
  | none => ""
  | some range =>
    match range.setStartAndClone with
    | none => ""
    | some html =>
      let html2 := (html.replace "</div><div>" "\n").replace "<br>" "\n"
      (innerText html2).replace "\u00A0" " "

/-- DEBOUNCE_TIME = debounceTime || 1000: none models an undefined
debounceTime prop, and 0 is falsy in JavaScript, so both fall back to the
default 1000 (NaN, the remaining falsy number, has no integer model). -/
def effectiveDebounceTime (debounceTime : Option Int) : Int :=
  match debounceTime with
  | none => 1000
  | some n => if n = 0 then 1000 else n

/-- C10: DEBOUNCE_TIME is computed as debounceTime || 1000, so the falsy
values 0 and undefined both yield the default 1000 and no configuration of
the prop makes the effective debounce value 0. -/
theorem debounceTime_falsy_defaults_to_1000 :
    effectiveDebounceTime (some 0) = 1000 ∧
    effectiveDebounceTime none = 1000 ∧
    ∀ dt, effectiveDebounceTime dt ≠ 0 := by
  refine ⟨rfl, rfl, ?_⟩
  intro dt
  cases dt with
  | none => simp [effectiveDebounceTime]
  | some n =>
    by_cases h : n = 0 <;> simp [effectiveDebounceTime, h]

/-- C9: whenever the caret cannot be resolved to a collapsed position inside
the surface — no selection, a non-collapsed (range) selection, or
range.setStart failing to anchor to the element — getTextUptilCaretInElement
returns the empty string; the function is total, the setStart failure being
the one exception the source catches. -/
theorem getTextUptilCaret_unresolvable_returns_empty
    (innerText : String → String) (dom : Dom)
    (h : dom.selection = none ∨
      (∃ sel, dom.selection = some sel ∧ sel.isCollapsed = false) ∨
      (∃ sel, dom.selection = some sel ∧
        sel.rangeAt0.setStartAndClone = none)) :
    getTextUptilCaretInElement innerText dom = "" := by
  rcases h with h | ⟨sel, hs, hc⟩ | ⟨sel, hs, hr⟩
  · simp [getTextUptilCaretInElement, getCaretAsRange, h]
  · simp [getTextUptilCaretInElement, getCaretAsRange, hs, hc]
  · cases hcol : sel.isCollapsed
    · simp [getTextUptilCaretInElement, getCaretAsRange, hs, hcol]
    · simp [getTextUptilCaretInElement, getCaretAsRange, hs, hcol, hr]

/-- Witness for the C9 theorem at a concrete unresolvable DOM state. -/
theorem getTextUptilCaret_unresolvable_returns_empty_witness :
    getTextUptilCaretInElement id { selection := none } = "" :=
  getTextUptilCaret_unresolvable_returns_empty id { selection := none }
    (Or.inl rfl)

/-- C2 counterexample: with an empty cache and a provider that rejects, the
rejection escapes showSuggestionAtCaret (err is set) instead of being caught
and treated as an empty result. -/
theorem providerError_escapes
    : (showSuggestionAtCaret (fun _ _ => Except.error "network down")
        "abc" "abc" 0 0 true "s9" initialState).err = some "network down" :=
  rfl

/-- C2 amended: on a cache miss where the provider throws/rejects, no
suggestion is shown and no callback fires, but the error is not caught
inside the engine: it escapes as the rejection of the async call. -/
theorem providerError_silent_but_uncaught
    (provider : String → Bool → Except String String)
    (st : EngineState) (s0 s1 : String) (t0 t1 : Nat) (ok : Bool)
    (nid e : String)
    (hmiss : ((lruGet st.cache s0).1.getD "") = "")
    (herr : provider s0 false = Except.error e) :
    (showSuggestionAtCaret provider s0 s1 t0 t1 ok nid st).notifs = [] ∧
    (showSuggestionAtCaret provider s0 s1 t0 t1 ok nid st).st.markers = [] ∧
    (showSuggestionAtCaret provider s0 s1 t0 t1 ok nid st).err = some e := by
  simp [showSuggestionAtCaret, removeSuggestionIfDisplayed, hmiss, herr]

/-- Witness for the C2 amended theorem. -/
theorem providerError_silent_but_uncaught_witness :
    (showSuggestionAtCaret (fun _ _ => Except.error "boom")
      "x" "y" 3 7 true "s1" initialState).notifs = [] ∧
    (showSuggestionAtCaret (fun _ _ => Except.error "boom")
      "x" "y" 3 7 true "s1" initialState).st.markers = [] ∧
    (showSuggestionAtCaret (fun _ _ => Except.error "boom")
      "x" "y" 3 7 true "s1" initialState).err = some "boom" :=
  providerError_silent_but_uncaught (fun _ _ => Except.error "boom")
    initialState "x" "y" 3 7 true "s1" "boom" rfl rfl

/-- C1 counterexample: suggestion "world" displayed, the user types "w"
(a prefix of it).  handleInput removes the marker with reason IMPLICIT, so
an onSuggestionRejected callback for the removed marker IS emitted, contrary
to the claim that the removal is suppressed from the reject callback. -/
theorem typedPrefix_removal_emits_reject :
    (handleInput false (some "w") "hello w" "hello w" 5 5 true "s2"
      { markers := [{ id := "s1", text := "world" }], cache := [],
        timerArmed := false, fetchAborted := false,
        disableSelectionEvent := false }).notifs =
      [Notif.rejected "s1" SuggestionRemovalReason.implicit,
       Notif.contentChange,
       Notif.shown "s2" 0 "orld" "hello w"] :=
  rfl

/-- C1 amended: in the typed-prefix (partial acceptance) case the engine
removes the displayed suggestion with reason IMPLICIT — not SYSTEM — and
therefore does emit an onSuggestionRejected callback for each removed
marker, before the content-change callback and any re-display. -/
theorem typedPrefix_removal_reason_is_implicit
    (st : EngineState) (m : Marker) (rest : List Marker)
    (d s0 s1 : String) (t0 t1 : Nat) (ok : Bool) (nid : String)
    (hm : st.markers = m :: rest)
    (hd : (d != "") = true)
    (hp : strStartsWith m.text d = true) :
    ∃ tail,
      (handleInput false (some d) s0 s1 t0 t1 ok nid st).notifs =
        ((m :: rest).map fun mk =>
          Notif.rejected mk.id SuggestionRemovalReason.implicit)
        ++ Notif.contentChange :: tail := by
  by_cases hrem : m.text.drop d.length = ""
  · exact ⟨[], by simp [handleInput, hm, removeSuggestionIfDisplayed, hd, hp, hrem]⟩
  · exact ⟨(showSuggestionAtCaret (fun _ _ => Except.ok (m.text.drop d.length))
        s0 s1 t0 t1 ok nid
        { markers := [], cache := st.cache, timerArmed := st.timerArmed,
          fetchAborted := st.fetchAborted,
          disableSelectionEvent := st.disableSelectionEvent }).notifs,
      by simp [handleInput, hm, removeSuggestionIfDisplayed, hd, hp, hrem]⟩

/-- Witness for the C1 amended theorem. -/
theorem typedPrefix_removal_reason_is_implicit_witness :
    ∃ tail,
      (handleInput false (some "w") "hello w" "hello w" 5 5 true "s2"
        { markers := [{ id := "s1", text := "world" }], cache := [],
          timerArmed := false, fetchAborted := false,
          disableSelectionEvent := false }).notifs =
        (([{ id := "s1", text := "world" }] : List Marker).map fun mk =>
          Notif.rejected mk.id SuggestionRemovalReason.implicit)
        ++ Notif.contentChange :: tail :=
  typedPrefix_removal_reason_is_implicit
    { markers := [{ id := "s1", text := "world" }], cache := [],
      timerArmed := false, fetchAborted := false,
      disableSelectionEvent := false }
    { id := "s1", text := "world" } [] "w" "hello w" "hello w" 5 5 true "s2"
    rfl rfl (by decide)

lemma lruSet_cons (c : List (String × String)) (k v : String) :
    lruSet c k v = (k, v) :: (c.filter (fun x => x.1 ≠ k)).take 24 :=
  rfl

lemma lruGet_lruSet_same (c : List (String × String)) (k v : String) :
    (lruGet (lruSet c k v) k).1 = some v := by
  rw [lruSet_cons]
  simp [lruGet]

/-- C3 counterexample: suggestion "world" displayed, user types "w", but the
cache already holds "xyz" for the new leading text "hello w".  The re-display
path consults the cache and shows the cached "xyz", not the remainder
"orld" — so the claim that no cache lookup is involved and exactly the
remainder is re-displayed fails. -/
theorem typedPrefix_redisplay_consultsCache :
    (handleInput false (some "w") "hello w" "hello w" 0 0 true "s2"
      { markers := [{ id := "s1", text := "world" }],
        cache := [("hello w", "xyz")], timerArmed := false,
        fetchAborted := false, disableSelectionEvent := false }).notifs =
      [Notif.rejected "s1" SuggestionRemovalReason.implicit,
       Notif.contentChange,
       Notif.shown "s2" 0 "xyz" "hello w"] :=
  rfl

/-- C3 amended: the re-display goes through the ordinary display path with a
synthesized provider returning the remainder (handleInput never touches the
externally supplied fetch function), but that path does consult the cache —
a cached entry for the new leading text takes precedence — and, on a cache
miss, displays exactly the remainder and writes it into the cache. -/
theorem typedPrefix_redisplaysRemainder_onCacheMiss
    (st : EngineState) (m : Marker) (rest : List Marker)
    (d s0 : String) (t0 t1 : Nat) (nid : String)
    (hm : st.markers = m :: rest)
    (hd : (d != "") = true)
    (hp : strStartsWith m.text d = true)
    (hrem : m.text.drop d.length ≠ "")
    (hmiss : ((lruGet st.cache s0).1.getD "") = "") :
    (handleInput false (some d) s0 s0 t0 t1 true nid st).st.markers =
      [{ id := nid, text := m.text.drop d.length }] ∧
    (handleInput false (some d) s0 s0 t0 t1 true nid st).notifs =
      ((m :: rest).map fun mk =>
        Notif.rejected mk.id SuggestionRemovalReason.implicit)
      ++ [Notif.contentChange,
          Notif.shown nid (t1 - t0) (m.text.drop d.length) s0] ∧
    (lruGet (handleInput false (some d) s0 s0 t0 t1 true nid st).st.cache
      s0).1 = some (m.text.drop d.length) := by
  refine ⟨?_, ?_, ?_⟩ <;>
    simp [handleInput, hm, hd, hp, hrem, showSuggestionAtCaret,
      removeSuggestionIfDisplayed, showTail, hmiss, lruGet_lruSet_same]

/-- Witness for the C3 amended theorem. -/
theorem typedPrefix_redisplaysRemainder_onCacheMiss_witness :
    (handleInput false (some "w") "hello w" "hello w" 2 6 true "s2"
      { markers := [{ id := "s1", text := "world" }], cache := [],
        timerArmed := false, fetchAborted := false,
        disableSelectionEvent := false }).st.markers =
      [{ id := "s2", text := "orld" }] ∧
    (handleInput false (some "w") "hello w" "hello w" 2 6 true "s2"
      { markers := [{ id := "s1", text := "world" }], cache := [],
        timerArmed := false, fetchAborted := false,
        disableSelectionEvent := false }).notifs =
      [Notif.rejected "s1" SuggestionRemovalReason.implicit,
       Notif.contentChange, Notif.shown "s2" 4 "orld" "hello w"] ∧
    (lruGet (handleInput false (some "w") "hello w" "hello w" 2 6 true "s2"
      { markers := [{ id := "s1", text := "world" }], cache := [],
        timerArmed := false, fetchAborted := false,
        disableSelectionEvent := false }).st.cache "hello w").1 =
      some "orld" := by
  have h := typedPrefix_redisplaysRemainder_onCacheMiss
    { markers := [{ id := "s1", text := "world" }], cache := [],
      timerArmed := false, fetchAborted := false,
      disableSelectionEvent := false }
    { id := "s1", text := "world" } [] "w" "hello w" 2 6 "s2"
    rfl rfl (by decide) (by decide) rfl
  simpa using h

/-- C4 counterexample: with a pending fetch (fetchAborted = false) and an
armed timer, pressing Escape (explicit reject) neither aborts the fetch nor
clears the timer, and Tab (accept) does not abort the fetch either —
contrary to the claim that all four events signal cancellation. -/
theorem escape_and_tab_doNotAbort :
    ((handleKeyDown false Key.escape true
      { markers := [{ id := "s1", text := "world" }], cache := [],
        timerArmed := true, fetchAborted := false,
        disableSelectionEvent := false }).st.fetchAborted = false) ∧
    ((handleKeyDown false Key.escape true
      { markers := [{ id := "s1", text := "world" }], cache := [],
        timerArmed := true, fetchAborted := false,
        disableSelectionEvent := false }).st.timerArmed = true) ∧
    ((handleKeyDown false Key.tab true
      { markers := [{ id := "s1", text := "world" }], cache := [],
        timerArmed := true, fetchAborted := false,
        disableSelectionEvent := false }).st.fetchAborted = false) :=
  ⟨rfl, rfl, rfl⟩

/-- C4 amended: of the four events only a new debounce cycle (the selection
handler) and blur run clearTimerAndAbortFetch, signalling abort on the
cancellation token of the in-flight fetch; Escape (explicit reject) and Tab
(accept) leave both the abort signal and the timer untouched. -/
theorem abort_only_on_selection_and_blur
    (st : EngineState) (se c l ok : Bool)
    (hds : st.disableSelectionEvent = false) :
    (handleSelection false se c l st).1.fetchAborted = true ∧
    (handleBlur st).1.fetchAborted = true ∧
    (handleBlur st).1.timerArmed = false ∧
    (handleKeyDown false Key.escape ok st).st.fetchAborted = st.fetchAborted ∧
    (handleKeyDown false Key.escape ok st).st.timerArmed = st.timerArmed ∧
    (handleKeyDown false Key.tab ok st).st.fetchAborted = st.fetchAborted ∧
    (handleKeyDown false Key.tab ok st).st.timerArmed = st.timerArmed := by
  refine ⟨?_, rfl, rfl, rfl, rfl, ?_, ?_⟩
  · simp [handleSelection, hds, clearTimerAndAbortFetch,
      removeSuggestionIfDisplayed]
    split
    · rfl
    · split <;> rfl
  all_goals
    cases hmk : st.markers with
    | nil => simp [handleKeyDown, hmk]
    | cons m rest =>
      by_cases hmt : m.text = "" <;>
        cases ok <;>
          simp [handleKeyDown, handleInput, removeSuggestionIfDisplayed,
            hmk, hmt]

/-- Witness for the C4 amended theorem. -/
theorem abort_only_on_selection_and_blur_witness :
    (handleSelection false true true true
      { markers := [], cache := [], timerArmed := true,
        fetchAborted := false, disableSelectionEvent := false
        }).1.fetchAborted = true ∧
    (handleBlur
      { markers := [], cache := [], timerArmed := true,
        fetchAborted := false, disableSelectionEvent := false
        }).1.fetchAborted = true ∧
    (handleBlur
      { markers := [], cache := [], timerArmed := true,
        fetchAborted := false, disableSelectionEvent := false
        }).1.timerArmed = false ∧
    (handleKeyDown false Key.escape true
      { markers := [], cache := [], timerArmed := true,
        fetchAborted := false, disableSelectionEvent := false
        }).st.fetchAborted = false ∧
    (handleKeyDown false Key.escape true
      { markers := [], cache := [], timerArmed := true,
        fetchAborted := false, disableSelectionEvent := false
        }).st.timerArmed = true ∧
    (handleKeyDown false Key.tab true
      { markers := [], cache := [], timerArmed := true,
        fetchAborted := false, disableSelectionEvent := false
        }).st.fetchAborted = false ∧
    (handleKeyDown false Key.tab true
      { markers := [], cache := [], timerArmed := true,
        fetchAborted := false, disableSelectionEvent := false
        }).st.timerArmed = true :=
  abort_only_on_selection_and_blur
    { markers := [], cache := [], timerArmed := true,
      fetchAborted := false, disableSelectionEvent := false }
    true true true true rfl

/-- C5 counterexample: with a suggestion displayed, an armed timer and a
non-aborted fetch, events arriving while disableAutocomplete is set leave
everything in place: the input handler keeps the marker and emits only a
content change (no implicit rejection), the selection handler neither clears
the timer nor aborts the fetch, and keydown does nothing — contrary to the
claim that setting the flag immediately removes the suggestion and tears
down timers and fetches. -/
theorem disabled_doesNotRemoveOrTearDown :
    (handleInput true (some "x") "h" "h" 0 0 true "n"
      { markers := [{ id := "s1", text := "world" }], cache := [],
        timerArmed := true, fetchAborted := false,
        disableSelectionEvent := false }).st =
      { markers := [{ id := "s1", text := "world" }], cache := [],
        timerArmed := true, fetchAborted := false,
        disableSelectionEvent := false } ∧
    (handleInput true (some "x") "h" "h" 0 0 true "n"
      { markers := [{ id := "s1", text := "world" }], cache := [],
        timerArmed := true, fetchAborted := false,
        disableSelectionEvent := false }).notifs =
      [Notif.contentChange] ∧
    (handleSelection true true true true
      { markers := [{ id := "s1", text := "world" }], cache := [],
        timerArmed := true, fetchAborted := false,
        disableSelectionEvent := false }).1 =
      { markers := [{ id := "s1", text := "world" }], cache := [],
        timerArmed := true, fetchAborted := false,
        disableSelectionEvent := false } ∧
    (handleKeyDown true Key.escape true
      { markers := [{ id := "s1", text := "world" }], cache := [],
        timerArmed := true, fetchAborted := false,
        disableSelectionEvent := false }).st =
      { markers := [{ id := "s1", text := "world" }], cache := [],
        timerArmed := true, fetchAborted := false,
        disableSelectionEvent := false } :=
  ⟨rfl, rfl, rfl, rfl⟩

/-- C5 amended: while disableAutocomplete is set the input, keydown and
selection handlers are no-ops on the engine state — no suggestion removal,
no rejection callback, no timer/fetch teardown (input still reports the
content change) — so a displayed suggestion survives and a live timer stays
armed; conversely, from a state with no marker, the enabled handlers for
input, keydown, selection and blur never create one, so a suggestion removed
while the flag was on is not resurrected by toggling it off. -/
theorem disabled_handlers_are_noops
    (st st0 : EngineState) (j : Option String) (s0 s1 : String) (t0 t1 : Nat)
    (ok : Bool) (nid : String) (k : Key) (se c l : Bool)
    (h0 : st0.markers = []) :
    (handleInput true j s0 s1 t0 t1 ok nid st).st = st ∧
    (handleInput true j s0 s1 t0 t1 ok nid st).notifs =
      [Notif.contentChange] ∧
    (handleKeyDown true k ok st).st = st ∧
    (handleKeyDown true k ok st).notifs = [] ∧
    (handleSelection true se c l st).1 = st ∧
    (handleSelection true se c l st).2 = [] ∧
    (handleInput false j s0 s1 t0 t1 ok nid st0).st.markers = [] ∧
    (handleKeyDown false k ok st0).st.markers = [] ∧
    (handleSelection false se c l st0).1.markers = [] ∧
    (handleBlur st0).1.markers = [] := by
  refine ⟨rfl, rfl, rfl, rfl, rfl, rfl, ?_, ?_, ?_, ?_⟩
  · simp [handleInput, h0, removeSuggestionIfDisplayed]
  · cases k <;> simp [handleKeyDown, h0, removeSuggestionIfDisplayed]
  · simp only [handleSelection]
    split
    · exact h0
    · split
      · simpa using h0
      · simp [clearTimerAndAbortFetch, removeSuggestionIfDisplayed]
        split
        · rfl
        · split <;> rfl
  · simp [handleBlur, clearTimerAndAbortFetch, removeSuggestionIfDisplayed]

/-- Witness for the C5 amended theorem. -/
theorem disabled_handlers_are_noops_witness :
    (handleInput true (some "x") "h" "h" 0 0 true "n"
      { markers := [{ id := "s1", text := "world" }], cache := [],
        timerArmed := true, fetchAborted := false,
        disableSelectionEvent := false }).st =
      { markers := [{ id := "s1", text := "world" }], cache := [],
        timerArmed := true, fetchAborted := false,
        disableSelectionEvent := false } ∧
    (handleInput true (some "x") "h" "h" 0 0 true "n"
      { markers := [{ id := "s1", text := "world" }], cache := [],
        timerArmed := true, fetchAborted := false,
        disableSelectionEvent := false }).notifs =
      [Notif.contentChange] ∧
    (handleKeyDown true Key.tab true
      { markers := [{ id := "s1", text := "world" }], cache := [],
        timerArmed := true, fetchAborted := false,
        disableSelectionEvent := false }).st =
      { markers := [{ id := "s1", text := "world" }], cache := [],
        timerArmed := true, fetchAborted := false,
        disableSelectionEvent := false } ∧
    (handleKeyDown true Key.tab true
      { markers := [{ id := "s1", text := "world" }], cache := [],
        timerArmed := true, fetchAborted := false,
        disableSelectionEvent := false }).notifs = [] ∧
    (handleSelection true true true true
      { markers := [{ id := "s1", text := "world" }], cache := [],
        timerArmed := true, fetchAborted := false,
        disableSelectionEvent := false }).1 =
      { markers := [{ id := "s1", text := "world" }], cache := [],
        timerArmed := true, fetchAborted := false,
        disableSelectionEvent := false } ∧
    (handleSelection true true true true
      { markers := [{ id := "s1", text := "world" }], cache := [],
        timerArmed := true, fetchAborted := false,
        disableSelectionEvent := false }).2 = [] ∧
    (handleInput false (some "x") "h" "h" 0 0 true "n"
      initialState).st.markers = [] ∧
    (handleKeyDown false Key.tab true initialState).st.markers = [] ∧
    (handleSelection false true true true initialState).1.markers = [] ∧
    (handleBlur initialState).1.markers = [] :=
  disabled_handlers_are_noops
    { markers := [{ id := "s1", text := "world" }], cache := [],
      timerArmed := true, fetchAborted := false,
      disableSelectionEvent := false }
    initialState (some "x") "h" "h" 0 0 true "n" Key.tab true true true rfl

/-- C8: when a fetch issued for leading text s0 resolves with non-empty text
but the text preceding the caret has meanwhile changed to s1 different from
s0, the re-verification at completion discards the result: no marker is
inserted and no onSuggestionShown callback fires. -/
theorem staleFetch_discarded
    (provider : String → Bool → Except String String)
    (st : EngineState) (s0 s1 : String) (t0 t1 : Nat) (ok : Bool)
    (nid v : String)
    (hmiss : ((lruGet st.cache s0).1.getD "") = "")
    (hok : provider s0 false = Except.ok v) (hv : v ≠ "")
    (hstale : s0 ≠ s1) :
    (showSuggestionAtCaret provider s0 s1 t0 t1 ok nid st).notifs = [] ∧
    (showSuggestionAtCaret provider s0 s1 t0 t1 ok nid st).st.markers
      = [] := by
  refine ⟨?_, ?_⟩ <;>
    simp [showSuggestionAtCaret, removeSuggestionIfDisplayed, showTail,
      hmiss, hok, hv, hstale]

/-- Witness for the C8 theorem. -/
theorem staleFetch_discarded_witness :
    (showSuggestionAtCaret (fun _ _ => Except.ok "T")
      "a" "b" 0 9 true "s1" initialState).notifs = [] ∧
    (showSuggestionAtCaret (fun _ _ => Except.ok "T")
      "a" "b" 0 9 true "s1" initialState).st.markers = [] :=
  staleFetch_discarded (fun _ _ => Except.ok "T") initialState "a" "b" 0 9
    true "s1" "T" rfl rfl (by decide) (by decide)

lemma removeSuggestion_markers (reason : SuggestionRemovalReason)
    (st : EngineState) :
    (removeSuggestionIfDisplayed reason st).1.markers = [] :=
  rfl

lemma showTail_markers_le (st : EngineState) (pCalls : Nat) (a b : String)
    (lat : Nat) (c : String) (ok : Bool) (nid : String)
    (h : st.markers = []) :
    (showTail st pCalls a b lat c ok nid).st.markers.length ≤ 1 := by
  unfold showTail
  split
  · simp [h]
  · split <;> simp [h]

lemma keyDown_markers (d : Bool) (k : Key) (ok : Bool) (st : EngineState) :
    (handleKeyDown d k ok st).st.markers.length ≤ 1 ∨
    (handleKeyDown d k ok st).st.markers = st.markers := by
  unfold handleKeyDown
  dsimp only
  split
  · exact Or.inr rfl
  · split
    · exact Or.inl (by simp [removeSuggestion_markers])
    · split
      · exact Or.inr rfl
      · split
        · exact Or.inr rfl
        · split
          · exact Or.inl (by
              simp [handleInput, removeSuggestion_markers,
                removeSuggestionIfDisplayed])
          · exact Or.inl (by simp [removeSuggestion_markers])
    · exact Or.inr rfl

lemma selection_markers (d se c l : Bool) (st : EngineState) :
    (handleSelection d se c l st).1.markers.length ≤ 1 ∨
    (handleSelection d se c l st).1.markers = st.markers := by
  unfold handleSelection
  dsimp only
  split
  · exact Or.inr rfl
  · split
    · exact Or.inr rfl
    · split
      · exact Or.inl (by
          simp [clearTimerAndAbortFetch, removeSuggestion_markers])
      · split
        · exact Or.inl (by
            simp [clearTimerAndAbortFetch, removeSuggestion_markers])
        · exact Or.inl (by
            simp [clearTimerAndAbortFetch, removeSuggestion_markers])

lemma blur_markers (st : EngineState) : (handleBlur st).1.markers = [] :=
  rfl

lemma removeSuggestion_cache (reason : SuggestionRemovalReason)
    (st : EngineState) :
    (removeSuggestionIfDisplayed reason st).1.cache = st.cache :=
  rfl

lemma mem_lruGet_snd {c : List (String × String)} {k : String}
    {e : String × String} (h : e ∈ (lruGet c k).2) : e ∈ c := by
  unfold lruGet at h
  cases hf : c.find? (fun x => x.1 == k) with
  | none => rw [hf] at h; exact h
  | some a =>
    rw [hf] at h
    rcases List.mem_cons.mp h with h2 | h2
    · exact h2 ▸ List.mem_of_find?_eq_some hf
    · exact List.mem_of_mem_filter h2

lemma mem_lruSet {c : List (String × String)} {k v : String}
    {e : String × String} (h : e ∈ lruSet c k v) : e = (k, v) ∨ e ∈ c := by
  unfold lruSet at h
  have h2 := List.take_subset _ _ h
  rcases List.mem_cons.mp h2 with h3 | h3
  · exact Or.inl h3
  · exact Or.inr (List.mem_of_mem_filter h3)

/-- The cache never stores an empty suggestion string: showSuggestionAtCaret
returns before the set when the fetched text is falsy. -/
def cacheOk (c : List (String × String)) : Prop :=
  ∀ e ∈ c, e.2 ≠ ""

lemma showTail_cache (st : EngineState) (p : Nat) (a b : String) (lat : Nat)
    (c : String) (ok : Bool) (nid : String) :
    (showTail st p a b lat c ok nid).st.cache = st.cache := by
  unfold showTail
  split
  · rfl
  · split <;> rfl

lemma showTail_calls (st : EngineState) (p : Nat) (a b : String) (lat : Nat)
    (c : String) (ok : Bool) (nid : String) :
    (showTail st p a b lat c ok nid).providerCalls = p := by
  unfold showTail
  split
  · rfl
  · split <;> rfl

lemma showTail_shown_lat (st : EngineState) (p : Nat) (a b : String)
    (lat : Nat) (c : String) (ok : Bool) (nid : String)
    {id tx ld : String} {lat2 : Nat}
    (h : Notif.shown id lat2 tx ld ∈ (showTail st p a b lat c ok nid).notifs) :
    lat2 = lat := by
  unfold showTail at h
  split at h
  · simp at h
  · split at h
    · simp only [List.mem_singleton, Notif.shown.injEq] at h
      exact h.2.1
    · simp at h

lemma show_cacheOk (p : String → Bool → Except String String)
    (s0 s1 : String) (t0 t1 : Nat) (ok : Bool) (nid : String)
    (st : EngineState) (h : cacheOk st.cache) :
    cacheOk (showSuggestionAtCaret p s0 s1 t0 t1 ok nid st).st.cache := by
  unfold showSuggestionAtCaret
  dsimp only
  split
  · rw [showTail_cache]
    intro e he
    exact h e (mem_lruGet_snd he)
  · split
    · intro e he
      exact h e (mem_lruGet_snd he)
    · split
      · intro e he
        exact h e (mem_lruGet_snd he)
      · rw [showTail_cache]
        intro e he
        rcases mem_lruSet he with h3 | h3
        · rw [h3]
          intro hc
          simp at hc
          simp_all
        · exact h e (mem_lruGet_snd h3)

lemma step_cacheOk (st : EngineState) (ev : Ev) (h : cacheOk st.cache) :
    cacheOk (step st ev).cache := by
  cases ev with
  | input d j s0 s1 t0 t1 ok nid =>
    simp only [step]
    unfold handleInput
    dsimp only
    split
    · exact h
    · split
      · split
        · split
          · exact show_cacheOk _ _ _ _ _ _ _ _ h
          · exact h
        · exact h
      · exact h
  | keyDown d k ok =>
    simp only [step]
    unfold handleKeyDown
    dsimp only
    split
    · exact h
    · split
      · exact h
      · split
        · exact h
        · split
          · exact h
          · split
            · exact h
            · exact h
      · exact h
  | selection d se c l =>
    simp only [step]
    unfold handleSelection
    dsimp only
    split
    · exact h
    · split
      · exact h
      · split
        · exact h
        · split
          · exact h
          · exact h
  | blur => exact h
  | timerFire p s0 s1 t0 t1 ok nid =>
    simp only [step]
    split
    · exact show_cacheOk _ _ _ _ _ _ _ _ h
    · exact h

lemma foldl_cacheOk (evs : List Ev) (st : EngineState) (h : cacheOk st.cache) :
    cacheOk ((evs.foldl step st).cache) := by
  induction evs generalizing st with
  | nil => exact h
  | cons e tl ih => exact ih _ (step_cacheOk st e h)

/-- On a cache hit showSuggestionAtCaret reduces to the common display tail
applied to the cached value, with latency t0 - t0. -/
lemma show_hit (p : String → Bool → Except String String)
    (s0 s1 : String) (t0 t1 : Nat) (ok : Bool) (nid : String)
    (st : EngineState) (v : String)
    (hhit : (lruGet st.cache s0).1 = some v) (hv : v ≠ "") :
    showSuggestionAtCaret p s0 s1 t0 t1 ok nid st =
      showTail
        { markers := [], cache := (lruGet st.cache s0).2,
          timerArmed := st.timerArmed, fetchAborted := st.fetchAborted,
          disableSelectionEvent := st.disableSelectionEvent }
        0 s0 v (t0 - t0) s0 ok nid := by
  unfold showSuggestionAtCaret
  dsimp only
  simp only [removeSuggestion_cache, hhit, Option.getD_some]
  rw [if_pos hv]
  rfl

/-- C7: when the extracted leading text has a (necessarily non-empty) cache
entry, the provider function is never invoked and any onSuggestionShown
callback produced by the call reports latency 0; moreover the cache reachable
through any event sequence holds only non-empty strings, so every cache entry
is an actual hit for the truthy-check in the source. -/
theorem cacheHit_skipsProvider_latencyZero
    (provider : String → Bool → Except String String)
    (st : EngineState) (s0 s1 : String) (t0 t1 : Nat) (ok : Bool)
    (nid v : String)
    (hhit : (lruGet st.cache s0).1 = some v) (hv : v ≠ "") :
    (showSuggestionAtCaret provider s0 s1 t0 t1 ok nid st).providerCalls
      = 0 ∧
    (∀ id lat tx ld,
      Notif.shown id lat tx ld
        ∈ (showSuggestionAtCaret provider s0 s1 t0 t1 ok nid st).notifs →
      lat = 0) ∧
    (∀ evs : List Ev, cacheOk (run evs).cache) := by
  refine ⟨?_, ?_, ?_⟩
  · rw [show_hit provider s0 s1 t0 t1 ok nid st v hhit hv]
    exact showTail_calls _ _ _ _ _ _ _ _
  · intro id lat tx ld hmem
    rw [show_hit provider s0 s1 t0 t1 ok nid st v hhit hv] at hmem
    have hl := showTail_shown_lat _ _ _ _ _ _ _ _ hmem
    simpa using hl
  · intro evs
    exact foldl_cacheOk evs initialState (by intro x hx; simp [initialState] at hx)

/-- Witness for the C7 theorem. -/
theorem cacheHit_skipsProvider_latencyZero_witness :
    (showSuggestionAtCaret (fun _ _ => Except.ok "zz") "ab" "ab" 4 9 true "s7"
      { markers := [], cache := [("ab", "cd")], timerArmed := false,
        fetchAborted := false,
        disableSelectionEvent := false }).providerCalls = 0 ∧
    (∀ id lat tx ld,
      Notif.shown id lat tx ld
        ∈ (showSuggestionAtCaret (fun _ _ => Except.ok "zz") "ab" "ab" 4 9
            true "s7"
            { markers := [], cache := [("ab", "cd")], timerArmed := false,
              fetchAborted := false,
              disableSelectionEvent := false }).notifs →
      lat = 0) ∧
    (∀ evs : List Ev, cacheOk (run evs).cache) :=
  cacheHit_skipsProvider_latencyZero (fun _ _ => Except.ok "zz")
    { markers := [], cache := [("ab", "cd")], timerArmed := false,
      fetchAborted := false, disableSelectionEvent := false }
    "ab" "ab" 4 9 true "s7" "cd" rfl (by decide)

/-- A showSuggestionAtCaret call suspended at the await of its provider: the
leading text it captured before suspending and the value the awaited promise
will eventually deliver (for the synthesized remainder provider this value
is fixed at issue time; for the external provider it is the eventual
response, carried here as an oracle). -/
structure PendingShow where
  lead : String
  result : Except String String

/-- Engine state together with the suspended show calls, for the
fine-grained model that interleaves surface events across the await. -/
structure AState where
  engine : EngineState
  pending : List PendingShow

def initialAState : AState :=
  { engine := initialState, pending := [] }

/-- Synchronous prefix of showSuggestionAtCaret, up to the provider await:
the SYSTEM removal, the cache lookup, and — on a hit, which crosses no
await — the complete display tail; on a miss a fresh AbortController is
installed and the call suspends, recording a pending resolution. -/
def showIssue (result : Except String String) (s0 nid : String)
    (insertOk : Bool) (st : EngineState) (pending : List PendingShow) :
    EngineState × List PendingShow :=
  let rm := removeSuggestionIfDisplayed SuggestionRemovalReason.system st
  let g := lruGet rm.1.cache s0
  let st2 := { rm.1 with cache := g.2 }
  if (g.1.getD "") ≠ "" then
    ((showTail st2 0 s0 (g.1.getD "") 0 s0 insertOk nid).st, pending)
  else
    ({ st2 with fetchAborted := false },
     pending ++ [{ lead := s0, result := result }])

/-- Continuation of showSuggestionAtCaret after the await: the empty-result
check, the cache write, the staleness re-read (s1) and the insertion at the
caret.  The SYSTEM removal ran at issue time, so the insertion adds to
whatever markers exist at resolution time — the point where this model is
finer than the atomic step. -/
def showResolve (p : PendingShow) (s1 nid : String) (insertOk : Bool)
    (st : EngineState) : EngineState :=
  match p.result with
  | Except.error _ => st
  | Except.ok sText =>
    if sText = "" then st
    else
      let st4 := { st with cache := lruSet st.cache p.lead sText }
      if p.lead ≠ s1 then st4
      else if insertOk then
        { st4 with markers := st4.markers ++ [{ id := nid, text := sText }] }
      else st4

/-- Events of the fine-grained model: the synchronous handlers with
autocomplete enabled (the disabled paths leave the engine state unchanged,
see the C5 theorem, so they cannot affect marker counts), the debounce timer
callback issuing a fetch, and the resolution of the i-th suspended call with
the leading-text re-read s1 and the insertion oracles of its continuation. -/
inductive AEv where
  | input (justTyped : Option String) (s0 nid : String) (insertOk : Bool)
  | keyDown (key : Key) (insertOk : Bool)
  | selection (selectionExists isCollapsed atLineEnd : Bool)
  | blur
  | timerFire (result : Except String String) (s0 nid : String)
      (insertOk : Bool)
  | resolveFetch (i : Nat) (s1 nid : String) (insertOk : Bool)

def AEv.isResolve : AEv → Bool
  | AEv.resolveFetch _ _ _ _ => true
  | _ => false

/-- One step of the fine-grained model.  input is handleInput with its
floating showSuggestionAtCaret call split at the await (the synthesized
provider resolves with the remainder); keyDown, selection and blur run the
synchronous handlers unchanged; timerFire runs the issue half of the timer
callback; resolveFetch resumes a suspended call, in any order the promises
may settle. -/
def stepFine (s : AState) (ev : AEv) : AState :=
  match ev with
  | AEv.input j s0 nid ok =>
    match s.engine.markers with
    | suggestion :: _ =>
      let d := j.getD ""
      if (d != "") && strStartsWith suggestion.text d then
        let rm :=
          removeSuggestionIfDisplayed SuggestionRemovalReason.implicit
            s.engine
        let remaining := suggestion.text.drop d.length
        if remaining ≠ "" then
          let r := showIssue (Except.ok remaining) s0 nid ok rm.1 s.pending
          { engine := { r.1 with disableSelectionEvent := true },
            pending := r.2 }
        else
          { engine := rm.1, pending := s.pending }
      else
        { engine :=
            (removeSuggestionIfDisplayed SuggestionRemovalReason.implicit
              s.engine).1,
          pending := s.pending }
    | [] =>
      { engine :=
          (removeSuggestionIfDisplayed SuggestionRemovalReason.implicit
            s.engine).1,
        pending := s.pending }
  | AEv.keyDown k ok =>
    { engine := (handleKeyDown false k ok s.engine).st,
      pending := s.pending }
  | AEv.selection se c l =>
    { engine := (handleSelection false se c l s.engine).1,
      pending := s.pending }
  | AEv.blur =>
    { engine := (handleBlur s.engine).1, pending := s.pending }
  | AEv.timerFire result s0 nid ok =>
    if s.engine.timerArmed then
      let r := showIssue result s0 nid ok
        { s.engine with timerArmed := false } s.pending
      { engine := r.1, pending := r.2 }
    else s
  | AEv.resolveFetch i s1 nid ok =>
    match s.pending[i]? with
    | none => s
    | some p =>
      { engine := showResolve p s1 nid ok s.engine,
        pending := s.pending.eraseIdx i }

/-- Run a fine-grained schedule from the freshly mounted component. -/
def runFine (evs : List AEv) : AState :=
  evs.foldl stepFine initialAState

/-- Schedules in which every fetch resolution fires while no marker is
materialized, i.e. no display interleaves between a fetch being issued and
that fetch resolving. -/
def okRun : AState → List AEv → Bool
  | _, [] => true
  | s, e :: tl =>
    (!e.isResolve || s.engine.markers.isEmpty) && okRun (stepFine s e) tl

lemma showIssue_markers_le (result : Except String String) (s0 nid : String)
    (ok : Bool) (st : EngineState) (pending : List PendingShow) :
    (showIssue result s0 nid ok st pending).1.markers.length ≤ 1 := by
  unfold showIssue
  dsimp only
  split
  · exact showTail_markers_le _ _ _ _ _ _ _ _ rfl
  · simp [removeSuggestion_markers]

lemma showResolve_markers (p : PendingShow) (s1 nid : String) (ok : Bool)
    (st : EngineState) (h : st.markers = []) :
    (showResolve p s1 nid ok st).markers.length ≤ 1 := by
  unfold showResolve
  split
  · simp [h]
  · split
    · simp [h]
    · dsimp only
      split
      · simp [h]
      · split <;> simp [h]

lemma stepFine_markers_le (s : AState) (e : AEv)
    (hs : s.engine.markers.length ≤ 1)
    (h1 : (!e.isResolve || s.engine.markers.isEmpty) = true) :
    (stepFine s e).engine.markers.length ≤ 1 := by
  cases e with
  | input j s0 nid ok =>
    simp only [stepFine]
    split
    · split
      · split
        · exact showIssue_markers_le _ _ _ _ _ _
        · simp [removeSuggestion_markers]
      · simp [removeSuggestion_markers]
    · simp [removeSuggestion_markers]
  | keyDown k ok =>
    rcases keyDown_markers false k ok s.engine with h2 | h2
    · simpa [stepFine] using h2
    · simp only [stepFine]
      rw [h2]
      exact hs
  | selection se c l =>
    rcases selection_markers false se c l s.engine with h2 | h2
    · simpa [stepFine] using h2
    · simp only [stepFine]
      rw [h2]
      exact hs
  | blur =>
    simp [stepFine, blur_markers]
  | timerFire result s0 nid ok =>
    simp only [stepFine]
    split
    · exact showIssue_markers_le _ _ _ _ _ _
    · exact hs
  | resolveFetch i s1 nid ok =>
    have hemp : s.engine.markers = [] := by
      simp only [AEv.isResolve, Bool.not_true, Bool.false_or] at h1
      exact List.isEmpty_iff.mp h1
    simp only [stepFine]
    split
    · exact hs
    · exact showResolve_markers _ _ _ _ _ hemp

lemma foldlFine_markers_le (evs : List AEv) (s : AState)
    (hs : s.engine.markers.length ≤ 1) (h : okRun s evs = true) :
    ((evs.foldl stepFine s).engine.markers.length ≤ 1) := by
  induction evs generalizing s with
  | nil => simpa using hs
  | cons e tl ih =>
    simp only [okRun, Bool.and_eq_true] at h
    obtain ⟨h1, h2⟩ := h
    exact ih (stepFine s e) (stepFine_markers_le s e hs h1) h2

/-- C6 counterexample: two debounce cycles at the same caret position while
the provider is slow.  Fetch A is issued and suspends, a caret event re-arms
the timer (aborting A, which the provider ignores), fetch B is issued and
suspends; A then resolves, passes the leading-text re-check (the text is
unchanged, and the ghost marker sits after the caret) and inserts a marker;
B resolves, passes the same re-check and inserts a second marker — two
markers are materialized at once, the corner case the source comment in
removeSuggestionIfDisplayed documents. -/
theorem overlappingFetches_twoMarkers :
    (runFine
      [AEv.selection true true true,
       AEv.timerFire (Except.ok "alpha") "L" "n1" true,
       AEv.selection true true true,
       AEv.timerFire (Except.ok "beta") "L" "n2" true,
       AEv.resolveFetch 0 "L" "n1" true,
       AEv.resolveFetch 0 "L" "n2" true]).engine.markers =
      [{ id := "n1", text := "alpha" }, { id := "n2", text := "beta" }] :=
  rfl

/-- C6 amended: the at-most-one invariant holds exactly for schedules in
which no fetch resolution fires while a marker is materialized (no display
interleaves between a fetch being issued and its resolution): under that
discipline any event sequence keeps the marker count at 0 or 1, while
overlapping pending fetches can materialize two markers; and whenever the
surface reports any number of markers, removeSuggestionIfDisplayed removes
them all together in its single invocation, treating them as one logical
suggestion. -/
theorem atMostOne_marker_without_overlap
    (evs : List AEv) (h : okRun initialAState evs = true) :
    (runFine evs).engine.markers.length ≤ 1 ∧
    ∀ reason st, (removeSuggestionIfDisplayed reason st).1.markers = [] :=
  ⟨foldlFine_markers_le evs initialAState (by simp [initialAState, initialState]) h,
   fun reason st => removeSuggestion_markers reason st⟩

/-- Witness for the C6 amended theorem: a non-overlapping schedule — issue,
then resolve before anything else is displayed — stays at one marker. -/
theorem atMostOne_marker_without_overlap_witness :
    (runFine
      [AEv.selection true true true,
       AEv.timerFire (Except.ok "alpha") "L" "n1" true,
       AEv.resolveFetch 0 "L" "n1" true]).engine.markers.length ≤ 1 ∧
    ∀ reason st, (removeSuggestionIfDisplayed reason st).1.markers = [] :=
  atMostOne_marker_without_overlap
    [AEv.selection true true true,
     AEv.timerFire (Except.ok "alpha") "L" "n1" true,
     AEv.resolveFetch 0 "L" "n1" true]
    (by decide)

end GhostText
